import Mathlib

/-!
Verification of the equipment-rental booking core (Telegram bot).

Shallow embedding of the availability engine (`check_equipment_availability`
in app/handlers/user/utils.py), phone validation (`validate_phone_number`),
the booking workflow (`on_send_request_click`, `on_confirm_delete_click`,
`on_confirm_delete_all_click`), and the payment reconciliation path
(`payment_details_getter`, `calculate_total_cost`, `on_pay_now_click`,
`handle_pre_checkout_query`, `handle_successful_payment`).

Conventions of the embedding:
* Calendar days are integers (the system reasons in whole days; all
  datetimes in the code are normalised to midnight before comparison).
* Decimal amounts are rationals; `Decimal.quantize(0.01, ROUND_DOWN)` is
  truncation toward zero at two decimal places.
* The persistence layer (DAO calls) is an external collaborator; a DAO
  call is modelled by its effect on an explicit database state (lists of
  rows).  `find_one_or_none` returns the first matching row, inserts
  append, updates map over rows.  The uniqueness constraint on
  `PaymentTransaction.transaction_id` makes a duplicate insert fail.
* A raised exception that a handler catches (or that the `connection`
  decorator turns into a rollback) is modelled as an error result with
  the database state unchanged; fallible sub-steps that can raise are
  passed in as `Except` values.
-/

namespace BookingCore

/-- Row of `equipment_rental_histories` (model `Equipment_Rental_History`):
equipment id, start date, optional end date, price at rental time and the
optional worked time, modelled as already split into (hours, minutes) the
way `calculate_total_cost` parses the "HH:MM" string (an unparsable string
falls back to the same default as an absent one). -/
structure RentalRow where
  id : Nat
  equipment_id : Nat
  start_date : Int
  end_date : Option Int
  rental_price_at_time : ℚ
  total_work_time : Option (Int × Int)
  deriving Repr, DecidableEq

/-- Row of `special_equipments` (model `Special_Equipment`), the fields the
booking core reads. -/
structure EquipmentRow where
  id : Nat
  name : String
  rental_price_per_day : ℚ
  deriving Repr, DecidableEq

/-- Row of `request_statuses` (model `Request_Status`). -/
structure StatusRow where
  id : Nat
  name : String
  deriving Repr, DecidableEq

/-- Row of `requests` (model `Request`). -/
structure RequestRow where
  id : Nat
  tg_id : Int
  equipment_name : String
  selected_date : Int
  phone_number : String
  address : String
  first_name : String
  username : Option String
  status_id : Nat
  deriving Repr, DecidableEq

/-- Row of `payment_transactions` (model `PaymentTransaction`).
`transaction_id` is the external charge identifier and carries a
uniqueness constraint. -/
structure PaymentTransactionRow where
  id : Nat
  request_id : Nat
  telegram_id : Int
  transaction_id : String
  amount : ℚ
  status : String
  deriving Repr, DecidableEq

/-- The durable store: the tables the booking core touches, plus
autoincrement counters for the primary keys. -/
structure DB where
  statuses : List StatusRow
  equipments : List EquipmentRow
  requests : List RequestRow
  rentals : List RentalRow
  transactions : List PaymentTransactionRow
  nextRequestId : Nat
  nextRentalId : Nat
  nextTxId : Nat
  deriving Repr, DecidableEq

/-- `RequestStatusDAO.find_one_or_none(RequestStatusBase(name=...))`. -/
def findStatus (db : DB) (nm : String) : Option StatusRow :=
  db.statuses.find? (fun s => s.name == nm)

/-! ### Availability engine (`check_equipment_availability`) -/

/-- Python-side filter of the fetched rental rows: same equipment,
`start_date <= end_date` of the window and (`end_date is None or
end_date >= start_date` of the window). -/
def fetchedRentals (rentals : List RentalRow) (eqId : Nat)
    (startDate endDate : Int) : List RentalRow :=
  rentals.filter (fun r =>
    r.equipment_id == eqId && decide (r.start_date ≤ endDate) &&
      (match r.end_date with
       | none => true
       | some ed => decide (startDate ≤ ed)))

/-- One rental blocks day `d`: `rental_start <= date <= (rental.end_date or
end_date)`, a missing end date standing for the end of the query window. -/
def rentalCovers (r : RentalRow) (endDate d : Int) : Bool :=
  decide (r.start_date ≤ d) && decide (d ≤ r.end_date.getD endDate)

/-- `all_dates`: the days `start_date + i` for
`i in range((end_date - start_date).days + 1)` (empty when the window is
reversed, as Python's `range` of a non-positive bound is empty). -/
def windowDates (startDate endDate : Int) : List Int :=
  (List.range (endDate + 1 - startDate).toNat).map (fun (i : Nat) => startDate + (i : Int))

/-- The `available_dates` accumulation loop: the days of the window no
fetched rental covers. -/
def availableDates (rentals : List RentalRow) (eqId : Nat)
    (startDate endDate : Int) : List Int :=
  (windowDates startDate endDate).filter (fun d =>
    !((fetchedRentals rentals eqId startDate endDate).any
        (fun r => rentalCovers r endDate d)))

/-- Result dictionary of `check_equipment_availability`: always the three
keys `is_available`, `available_dates`, `message`. -/
structure AvailResult where
  is_available : Bool
  available_dates : List Int
  message : String
  deriving Repr, DecidableEq

/-- `check_equipment_availability(equipment_name, session, start_date,
end_date)`.  The two awaited DAO calls (equipment lookup by name, rental
fetch) may raise, which the function's `try`/`except` turns into an error
result; they are passed as `Except` values.  `today` is midnight of the
current day and `todayWeekday` its weekday (0 = Monday), used only for the
defaults of an omitted range. -/
def checkEquipmentAvailability (equipmentFind : Except String (Option Nat))
    (rentalsFind : Except String (List RentalRow)) (equipmentName : String)
    (today todayWeekday : Int) (startDateArg endDateArg : Option Int) :
    AvailResult :=
  match equipmentFind with
  | .error e =>
      { is_available := false, available_dates := [],
        message := "Ошибка при проверке доступности техники: " ++ e }
  | .ok none =>
      { is_available := false, available_dates := [],
        message := "Техника " ++ equipmentName ++ " не найдена" }
  | .ok (some eqId) =>
    let startDate := startDateArg.getD today
    let endDate := endDateArg.getD (today - todayWeekday + 6)
    match rentalsFind with
    | .error e =>
        { is_available := false, available_dates := [],
          message := "Ошибка при проверке доступности техники: " ++ e }
    | .ok allRentals =>
      let avail := availableDates allRentals eqId startDate endDate
      { is_available := avail != [],
        available_dates := avail,
        message := if avail != [] then
            "Техника " ++ equipmentName ++ " доступна для аренды в указанный период"
          else
            "Техника " ++ equipmentName ++ " занята в указанный период" }

/-! ### Calendar rendering (`CustomCalendarDaysView._render_date_button`) -/

/-- What `_render_date_button` produces for one day: either the empty
placeholder button or a clickable day button. -/
inductive DateButton
  | empty
  | day (d : Int) (isToday : Bool)
  deriving Repr, DecidableEq

/-- `_render_date_button`: a date strictly before today, or one not in the
availability list, renders as the empty button; otherwise a clickable
button (bracketed when it is today). -/
def renderDateButton (selectedDate today : Int) (availableDates : List Int) :
    DateButton :=
  if selectedDate < today ∨ ¬ selectedDate ∈ availableDates then .empty
  else .day selectedDate (selectedDate == today)

/-! ### Phone validation (`validate_phone_number`, `on_phone_number_input`) -/

/-- `re.sub(r'\D', '', phone)`: the digit characters of the input, in
order. -/
def digitsOf (phone : String) : List Char :=
  phone.toList.filter Char.isDigit

/-- `validate_phone_number`: strip the non-digit characters, then accept
11 digits led by 7 or 8, exactly 10 digits, or 12 digits led by 7,
rewriting to the `+7...` form; anything else is rejected (`None`). -/
def validatePhoneNumber (phone : String) : Option String :=
  let digits := digitsOf phone
  if digits.length == 11 && (digits.headD ' ' == '7' || digits.headD ' ' == '8') then
    some ("+7" ++ String.mk (digits.drop 1))
  else if digits.length == 10 then
    some ("+7" ++ String.mk digits)
  else if digits.length == 12 && digits.headD ' ' == '7' then
    some ("+" ++ String.mk digits)
  else
    none

/-- The dialog states touched by the phone-entry step. -/
inductive DState
  | enter_phone
  | confirm_phone
  deriving Repr, DecidableEq

/-- The slice of the per-conversation session `on_phone_number_input`
reads and writes. -/
structure PhoneSession where
  dialogState : DState
  phoneNumber : Option String
  errorMessage : String
  deriving Repr, DecidableEq

/-- `on_phone_number_input`, text branch: a valid number is stored
normalised, the error message cleared and the dialog advances to phone
confirmation; an invalid one records the error message and stays put. -/
def onPhoneNumberInput (s : PhoneSession) (text : String) : PhoneSession :=
  match validatePhoneNumber text with
  | some formatted =>
      { s with phoneNumber := some formatted, errorMessage := "",
               dialogState := .confirm_phone }
  | none =>
      { s with errorMessage :=
          "Неверный формат номера. Пожалуйста, введите номер в формате 89930057019. Или нажмите Отправить номер" }

/-! ### Booking workflow (`on_send_request_click`, cancellation handlers) -/

/-- Outcome of the submit handler. -/
inductive SubmitResult
  | ok (req : RequestRow)
  | err (msg : String)
  deriving Repr, DecidableEq

/-- `on_send_request_click`: inside one session/transaction, look the
equipment up by name (raising if absent), insert the request through
`RequestDAO.add` (which looks the status named "Новая" up and raises if
it is absent), insert the matching rental-history row with the requested
start date and the equipment's current daily rate, then commit.  Any
exception rolls the whole transaction back, so on error the store is
returned unchanged. -/
def onSendRequestClick (db : DB) (tgId : Int) (firstName : String)
    (username : Option String) (equipmentName : String) (selectedDate : Int)
    (phone address : String) : DB × SubmitResult :=
  match db.equipments.find? (fun e => e.name == equipmentName) with
  | none => (db, .err ("Спецтехника с именем " ++ equipmentName ++ " не найдено"))
  | some equip =>
    match findStatus db "Новая" with
    | none => (db, .err "Статус Новая не найден в базе данных")
    | some st =>
      let req : RequestRow :=
        { id := db.nextRequestId, tg_id := tgId,
          equipment_name := equipmentName, selected_date := selectedDate,
          phone_number := phone, address := address, first_name := firstName,
          username := username, status_id := st.id }
      let rental : RentalRow :=
        { id := db.nextRentalId, equipment_id := equip.id,
          start_date := selectedDate, end_date := none,
          rental_price_at_time := equip.rental_price_per_day,
          total_work_time := none }
      ({ db with requests := db.requests ++ [req],
                 rentals := db.rentals ++ [rental],
                 nextRequestId := db.nextRequestId + 1,
                 nextRentalId := db.nextRentalId + 1 },
       .ok req)

/-- `on_confirm_delete_click` (cancel a single request): update the rows
matching `id == request_id` to the hard-coded status id 8, with no guard
on the current status; returns the row count the update reports. -/
def onConfirmDeleteClick (db : DB) (requestId : Nat) : DB × Nat :=
  ({ db with requests := db.requests.map (fun r =>
      if r.id == requestId then { r with status_id := 8 } else r) },
   db.requests.countP (fun r => r.id == requestId))

/-- Outcome of the bulk-cancel handler. -/
inductive CancelAllResult
  | missingStatus
  | done (count : Nat)
  deriving Repr, DecidableEq

/-- `on_confirm_delete_all_click`: look the statuses named "Новая" and
"Отменена" up (reporting an error if either is missing), then update the
rows with this requester's `tg_id` that are currently in status "Новая"
to "Отменена", returning the affected row count. -/
def onConfirmDeleteAllClick (db : DB) (tgId : Int) : DB × CancelAllResult :=
  match findStatus db "Новая", findStatus db "Отменена" with
  | some stNew, some stCan =>
      ({ db with requests := db.requests.map (fun r =>
          if r.tg_id == tgId && r.status_id == stNew.id then
            { r with status_id := stCan.id }
          else r) },
       .done (db.requests.countP
          (fun r => r.tg_id == tgId && r.status_id == stNew.id)))
  | _, _ => (db, .missingStatus)

/-! ### Payment reconciliation -/

/-- `Decimal.quantize` / `int()` rounding toward zero on a rational:
floor of a non-negative value, ceiling of a negative one. -/
def truncQ (x : ℚ) : Int := if 0 ≤ x then ⌊x⌋ else ⌈x⌉

/-- `calculate_total_cost`: a falsy (absent or zero) price yields 0.00;
otherwise price times the worked hours (parsed "HH:MM", defaulting to 24
hours when absent or unparsable), truncated toward zero at two decimal
places (`quantize(Decimal('0.01'), ROUND_DOWN)`). -/
def calculateTotalCost (rental : RentalRow) : ℚ :=
  if rental.rental_price_at_time = 0 then 0
  else
    let totalHours : ℚ :=
      match rental.total_work_time with
      | none => 24
      | some (h, m) => (h : ℚ) + (m : ℚ) / 60
    (truncQ (rental.rental_price_at_time * totalHours * 100) : ℚ) / 100

/-- The fields of the dictionary `payment_details_getter` builds that the
invoice path reads. -/
structure PaymentDetails where
  total_cost_kopecks : Int
  request_id : Nat
  is_paid : Bool
  deriving Repr, DecidableEq

/-- Outcome of `payment_details_getter`. -/
inductive DetailsResult
  | ok (d : PaymentDetails)
  | err (msg : String)
  deriving Repr, DecidableEq

/-- `payment_details_getter`: resolve request, equipment (by the request's
stored name), and the rental row keyed by (equipment id, the request's
selected date); require an end date and a strictly positive amount in
kopecks, each failure producing the corresponding error dictionary. -/
def paymentDetailsGetter (db : DB) (requestId : Nat) (tgId : Int) :
    DetailsResult :=
  match db.requests.find? (fun r => r.id == requestId) with
  | none => .err "Заявка не найдена"
  | some req =>
    match db.equipments.find? (fun e => e.name == req.equipment_name) with
    | none => .err "Техника не найдена"
    | some equip =>
      match db.rentals.find? (fun r =>
          r.equipment_id == equip.id && r.start_date == req.selected_date) with
      | none => .err "Данные об аренде не найдены"
      | some rental =>
        match rental.end_date with
        | none => .err "Данные об аренде не найдены"
        | some _ =>
          let kop := truncQ (calculateTotalCost rental * 100)
          if kop ≤ 0 then .err "Недопустимая сумма оплаты"
          else
            .ok { total_cost_kopecks := kop, request_id := requestId,
                  is_paid := db.transactions.any (fun t =>
                    t.telegram_id == tgId && t.request_id == requestId) }

/-- The state `on_pay_now_click` acts on: the store, the dialog slot
remembering the last invoice message, the set of live (not yet deleted)
invoice messages in the chat, and the transport's message-id counter. -/
structure PayState where
  db : DB
  invoiceMessageId : Option Nat
  liveInvoices : List Nat
  nextMessageId : Nat
  deriving Repr, DecidableEq

/-- Outcome of `on_pay_now_click`. -/
inductive PayResult
  | detailsError (msg : String)
  | alreadyPaid
  | invalidAmount
  | invoiceSent (messageId : Nat)
  deriving Repr, DecidableEq

/-- `on_pay_now_click`: rebuild the payment details (any error is
surfaced and nothing is sent); refuse when a `PaymentTransaction` for the
request already exists; refuse a non-positive amount; otherwise delete
the previously issued invoice message recorded in the dialog data, send
the new invoice and record its message id. -/
def onPayNowClick (s : PayState) (requestId : Nat) (tgId : Int) :
    PayState × PayResult :=
  match paymentDetailsGetter s.db requestId tgId with
  | .err m => (s, .detailsError m)
  | .ok details =>
    match s.db.transactions.find? (fun t => t.request_id == details.request_id) with
    | some _ => (s, .alreadyPaid)
    | none =>
      if details.total_cost_kopecks ≤ 0 then (s, .invalidAmount)
      else
        let live1 := match s.invoiceMessageId with
          | some mid => s.liveInvoices.erase mid
          | none => s.liveInvoices
        ({ s with liveInvoices := live1 ++ [s.nextMessageId],
                  invoiceMessageId := some s.nextMessageId,
                  nextMessageId := s.nextMessageId + 1 },
         .invoiceSent s.nextMessageId)

/-- The bot's answer to a pre-checkout query. -/
inductive PreCheckoutAnswer
  | accept
  | reject (errorMessage : String)
  deriving Repr, DecidableEq

/-- The character sequence of the literal "request_" the payload checks
compare against. -/
def requestPat : List Char := ['r', 'e', 'q', 'u', 'e', 's', 't', '_']

/-- Python's `payload.startswith("request_")` on the character sequence. -/
def startsWithRequest (payload : String) : Bool :=
  payload.toList.take 8 == requestPat

/-- `handle_pre_checkout_query`: answer ok exactly when the invoice
payload starts with the "request_" prefix; otherwise answer not-ok with
an error message. -/
def handlePreCheckoutQuery (payload : String) : PreCheckoutAnswer :=
  if startsWithRequest payload then .accept
  else .reject "Неверный идентификатор заказа."

/-- Modelled from the spec: "a request created by this workflow" — the
payload references such a request when some persisted `BookingRequest`
has exactly this payload (`request_` followed by its id), the format the
invoice path attaches.  (Spec wording; used to compare the pre-checkout
guard against its stated intent.) -/
def payloadReferencesRequest (db : DB) (payload : String) : Prop :=
  ∃ r ∈ db.requests, payload = "request_" ++ toString r.id

/-- Python's `str.replace("request_", "")` on the character sequence:
remove the left-most occurrence and continue after it, scanning left to
right without overlap.  The `Nat` argument is recursion fuel; every step
consumes at least one character, so fuel equal to the length of the list
makes the fallback branch unreachable. -/
def stripRequestAux : Nat → List Char → List Char
  | 0, l => l
  | _ + 1, [] => []
  | fuel + 1, c :: cs =>
    if List.take 8 (c :: cs) = requestPat then
      stripRequestAux fuel (List.drop 8 (c :: cs))
    else
      c :: stripRequestAux fuel cs

/-- The occurrence-removal scan started with enough fuel. -/
def stripRequestOccs (l : List Char) : List Char :=
  stripRequestAux l.length l

/-- Python's `int(...)` on the stripped remainder: a non-empty all-digit
sequence parses to its decimal value, anything else raises `ValueError`. -/
def parseNatDigits (l : List Char) : Option Nat :=
  if l ≠ [] ∧ l.all Char.isDigit then
    some (l.foldl (fun acc c => acc * 10 + (c.toNat - 48)) 0)
  else none

/-- `int(payload.replace("request_", ""))`: every occurrence of the
prefix is removed and the remainder parsed as a number; a failing parse
raises. -/
def parseRequestId (payload : String) : Option Nat :=
  parseNatDigits (stripRequestOccs payload.toList)

/-- Outcome of `handle_successful_payment`. -/
inductive PaymentResult
  | badPayload
  | parseError
  | duplicateCharge
  | ok (statusUpdated : Bool) (notified : Bool)
  deriving Repr, DecidableEq

/-- `handle_successful_payment`: ignore a payload without the prefix;
parse the request id (a failure raises and rolls back); insert the
`PaymentTransaction` with status "success" — an insert whose
`transaction_id` collides with an existing row violates the uniqueness
constraint, and the surrounding `connection` decorator rolls the whole
transaction back and re-raises; otherwise look the status named
"Оплачено" up and, when present, move the request to it, then notify the
requester.  (The float artifact of `total_amount / 100.0` is abstracted
to exact division.) -/
def handleSuccessfulPayment (db : DB) (tgId : Int) (payload : String)
    (chargeId : String) (totalAmount : Int) : DB × PaymentResult :=
  if startsWithRequest payload then
    match parseRequestId payload with
    | none => (db, .parseError)
    | some requestId =>
      if db.transactions.any (fun t => t.transaction_id == chargeId) then
        (db, .duplicateCharge)
      else
        let tx : PaymentTransactionRow :=
          { id := db.nextTxId, request_id := requestId, telegram_id := tgId,
            transaction_id := chargeId, amount := (totalAmount : ℚ) / 100,
            status := "success" }
        let db1 := { db with transactions := db.transactions ++ [tx],
                             nextTxId := db.nextTxId + 1 }
        match findStatus db "Оплачено" with
        | some stPaid =>
            ({ db1 with requests := db1.requests.map (fun r =>
                if r.id == requestId then { r with status_id := stPaid.id }
                else r) },
             .ok true true)
        | none => (db1, .ok false true)
  else (db, .badPayload)

/-! ### Helper lemmas about the availability computation -/

theorem mem_windowDates {s e d : Int} : d ∈ windowDates s e ↔ s ≤ d ∧ d ≤ e := by
  simp only [windowDates, List.mem_map, List.mem_range]
  constructor
  · rintro ⟨i, hi, rfl⟩
    omega
  · rintro ⟨h1, h2⟩
    exact ⟨(d - s).toNat, by omega, by omega⟩

theorem mem_availableDates {rs : List RentalRow} {eqId : Nat} {s e d : Int} :
    d ∈ availableDates rs eqId s e ↔
      (s ≤ d ∧ d ≤ e) ∧
        ∀ r ∈ fetchedRentals rs eqId s e, rentalCovers r e d = false := by
  simp only [availableDates, List.mem_filter, mem_windowDates,
    Bool.not_eq_true', List.any_eq_false, Bool.not_eq_true]

theorem not_mem_availableDates {rs : List RentalRow} {eqId : Nat} {s e d : Int}
    (h1 : s ≤ d) (h2 : d ≤ e) :
    d ∉ availableDates rs eqId s e ↔
      ∃ r ∈ fetchedRentals rs eqId s e, rentalCovers r e d = true := by
  simp [mem_availableDates, h1, h2]

theorem check_available_dates (eqId : Nat) (rs : List RentalRow) (nm : String)
    (today wd : Int) (sArg eArg : Option Int) :
    (checkEquipmentAvailability (.ok (some eqId)) (.ok rs) nm today wd
        sArg eArg).available_dates
      = availableDates rs eqId (sArg.getD today) (eArg.getD (today - wd + 6)) :=
  rfl

theorem check_available_dates_some (eqId : Nat) (rs : List RentalRow)
    (nm : String) (today wd s e : Int) :
    (checkEquipmentAvailability (.ok (some eqId)) (.ok rs) nm today wd
        (some s) (some e)).available_dates = availableDates rs eqId s e :=
  rfl

/-! ### Claim theorems: availability engine -/

/-- C5: for the equipment with the single rental interval `[10, 12]`
(2025-06-10 through 2025-06-12, days written as day-of-June numbers) and
the query window `[8, 15]` with today on 8, the free days are exactly
`{8, 9, 13, 14, 15}` and the busy days of the window are exactly
`{10, 11, 12}`; in general a day of the window is busy iff some fetched
interval satisfies `start <= day <= (end or rangeEnd)`; and an interval
with `start == end` blocks exactly that one day. -/
theorem claim_C5 :
    ((checkEquipmentAvailability (.ok (some 1))
        (.ok [⟨1, 1, 10, some 12, 0, none⟩]) "Excavator-200" 8 0
        (some 8) (some 15)).available_dates = [8, 9, 13, 14, 15]
      ∧ ∀ d : Int, 8 ≤ d → d ≤ 15 →
          (d ∉ (checkEquipmentAvailability (.ok (some 1))
              (.ok [⟨1, 1, 10, some 12, 0, none⟩]) "Excavator-200" 8 0
              (some 8) (some 15)).available_dates ↔ 10 ≤ d ∧ d ≤ 12))
    ∧ (∀ (rs : List RentalRow) (eqId : Nat) (nm : String) (today wd s e d : Int),
        s ≤ d → d ≤ e →
          (d ∉ (checkEquipmentAvailability (.ok (some eqId)) (.ok rs) nm today wd
              (some s) (some e)).available_dates ↔
            ∃ r ∈ fetchedRentals rs eqId s e, rentalCovers r e d = true))
    ∧ (∀ (idv eqId : Nat) (nm : String) (today wd s e d d0 : Int) (price : ℚ)
        (tw : Option (Int × Int)), s ≤ d → d ≤ e →
          (d ∉ (checkEquipmentAvailability (.ok (some eqId))
              (.ok [⟨idv, eqId, d0, some d0, price, tw⟩]) nm today wd
              (some s) (some e)).available_dates ↔ d = d0)) := by
  refine ⟨⟨by decide, ?_⟩, ?_, ?_⟩
  · intro d h1 h2
    rw [check_available_dates_some, not_mem_availableDates h1 h2]
    simp [fetchedRentals, rentalCovers]
  · intro rs eqId nm today wd s e d h1 h2
    rw [check_available_dates_some]
    exact not_mem_availableDates h1 h2
  · intro idv eqId nm today wd s e d d0 price tw h1 h2
    rw [check_available_dates_some, not_mem_availableDates h1 h2]
    by_cases hc1 : d0 ≤ e
    · by_cases hc2 : s ≤ d0
      · simp [fetchedRentals, rentalCovers, hc1, hc2]
        omega
      · simp [fetchedRentals, hc2]
        omega
    · simp [fetchedRentals, hc1]
      omega

/-- C5 witness: day 11 of the scenario window is busy, by the general
busy-criterion applied to the scenario interval. -/
theorem claim_C5_witness :
    (11 : Int) ∉ (checkEquipmentAvailability (.ok (some 1))
        (.ok [⟨1, 1, 10, some 12, 0, none⟩]) "Excavator-200" 8 0
        (some 8) (some 15)).available_dates :=
  (claim_C5.1.2 11 (by norm_num) (by norm_num)).mpr (by norm_num)

/-- C6 counterexample: with zero rental intervals and the query window
`[8, 10]` while today is day 10, `check_equipment_availability` returns
day 8 — a day strictly before today — as free, so the availability
computation itself does not exclude days before today. -/
theorem claim_C6_cex :
    (8 : Int) ∈ (checkEquipmentAvailability (.ok (some 1)) (.ok [])
        "Excavator-200" 10 0 (some 8) (some 10)).available_dates
      ∧ (8 : Int) < 10 := by
  constructor
  · decide
  · norm_num

/-- C6 (amended): for zero rental intervals the availability computation
returns every day of the query window as free, with no filtering of days
before today (the window being the explicit range, or the default range
derived from today and the current week when a bound is omitted); the
guarantee that days strictly before today are never offered holds at the
rendering layer, where `_render_date_button` renders an empty button for
every date strictly before today. -/
theorem claim_C6 :
    (∀ (eqId : Nat) (nm : String) (today wd : Int) (sArg eArg : Option Int)
      (d : Int),
        d ∈ (checkEquipmentAvailability (.ok (some eqId)) (.ok []) nm today wd
            sArg eArg).available_dates ↔
          sArg.getD today ≤ d ∧ d ≤ eArg.getD (today - wd + 6))
    ∧ (∀ (d today : Int) (avail : List Int), d < today →
        renderDateButton d today avail = .empty) := by
  constructor
  · intro eqId nm today wd sArg eArg d
    rw [check_available_dates, mem_availableDates]
    simp [fetchedRentals]
  · intro d today avail h
    simp [renderDateButton, h]

/-- C6 witness: in the counterexample situation the engine reports day 8
free although today is day 10, while the renderer suppresses it. -/
theorem claim_C6_witness :
    ((8 : Int) ∈ (checkEquipmentAvailability (.ok (some 1)) (.ok [])
        "Excavator-200" 10 0 (some 8) (some 10)).available_dates)
      ∧ renderDateButton 8 10 [8, 9, 10] = .empty :=
  ⟨(claim_C6.1 1 "Excavator-200" 10 0 (some 8) (some 10) 8).mpr (by norm_num),
   claim_C6.2 8 10 [8, 9, 10] (by norm_num)⟩

/-- C7: an interval with a null end date starting on day `D` makes every
day of the query window that is at least `D` busy (absent from the free
dates). -/
theorem claim_C7 :
    ∀ (rs : List RentalRow) (r : RentalRow) (eqId : Nat) (nm : String)
      (today wd s e d : Int),
      r ∈ rs → r.equipment_id = eqId → r.end_date = none →
      s ≤ d → d ≤ e → r.start_date ≤ d →
      d ∉ (checkEquipmentAvailability (.ok (some eqId)) (.ok rs) nm today wd
          (some s) (some e)).available_dates := by
  intro rs r eqId nm today wd s e d hmem heq hend h1 h2 hs
  rw [check_available_dates_some, not_mem_availableDates h1 h2]
  refine ⟨r, ?_, ?_⟩
  · simp [fetchedRentals, List.mem_filter, hmem, heq, hend]
    omega
  · simp [rentalCovers, hend]
    omega

/-- C7 witness: the open-ended interval starting on day 10 blocks day 12
of the window `[8, 15]`. -/
theorem claim_C7_witness :
    (12 : Int) ∉ (checkEquipmentAvailability (.ok (some 1))
        (.ok [⟨1, 1, 10, none, 0, none⟩]) "Excavator-200" 8 0
        (some 8) (some 15)).available_dates :=
  claim_C7 [⟨1, 1, 10, none, 0, none⟩] ⟨1, 1, 10, none, 0, none⟩ 1
    "Excavator-200" 8 0 8 15 12 (List.mem_singleton.mpr rfl) rfl rfl
    (by norm_num) (by norm_num) (by norm_num)

/-- C10: the availability check is total at its interface — every input,
including a raising equipment lookup or rental query, yields a result
record (with the `is_available`, `available_dates` and `message` fields,
by its type); in every error or not-found case `is_available` is false
and `available_dates` is empty, and in general `is_available` is true
exactly when `available_dates` is non-empty. -/
theorem claim_C10 :
    ∀ (ef : Except String (Option Nat)) (rf : Except String (List RentalRow))
      (nm : String) (today wd : Int) (sArg eArg : Option Int),
      ((checkEquipmentAvailability ef rf nm today wd sArg eArg).is_available = true ↔
        (checkEquipmentAvailability ef rf nm today wd sArg eArg).available_dates ≠ [])
      ∧ (((∃ m, ef = .error m) ∨ ef = .ok none ∨ (∃ m, rf = .error m)) →
          (checkEquipmentAvailability ef rf nm today wd sArg eArg).is_available = false
            ∧ (checkEquipmentAvailability ef rf nm today wd sArg eArg).available_dates = []) := by
  intro ef rf nm today wd sArg eArg
  rcases ef with em | oe
  · simp [checkEquipmentAvailability]
  · rcases oe with _ | eqId
    · simp [checkEquipmentAvailability]
    · rcases rf with rm | rl
      · simp [checkEquipmentAvailability]
      · constructor
        · simp [checkEquipmentAvailability, bne_iff_ne]
        · rintro (⟨m, h⟩ | h | ⟨m, h⟩) <;> simp_all

/-! ### Claim theorems: phone validation and pre-checkout -/

/-- C8: phone validation strips the non-digit characters, then accepts
11 digits led by 7 or 8 (as `+7` plus the last 10), 10 digits (as `+7`
plus them), 12 digits led by 7 (as `+` plus them), and rejects everything
else; `89930057019` normalises to `+79930057019` and `123` is rejected;
on rejection the handler records an error message and keeps the dialog
state and stored number unchanged, on success it stores the normalised
number, clears the error and advances to phone confirmation. -/
theorem claim_C8 :
    (∀ phone : String,
      ((digitsOf phone).length = 11 →
        ((digitsOf phone).headD ' ' = '7' ∨ (digitsOf phone).headD ' ' = '8') →
        validatePhoneNumber phone = some ("+7" ++ String.mk ((digitsOf phone).drop 1)))
      ∧ ((digitsOf phone).length = 10 →
          validatePhoneNumber phone = some ("+7" ++ String.mk (digitsOf phone)))
      ∧ ((digitsOf phone).length = 12 → (digitsOf phone).headD ' ' = '7' →
          validatePhoneNumber phone = some ("+" ++ String.mk (digitsOf phone)))
      ∧ (validatePhoneNumber phone = none ↔
          ¬(((digitsOf phone).length = 11
              ∧ ((digitsOf phone).headD ' ' = '7' ∨ (digitsOf phone).headD ' ' = '8'))
            ∨ (digitsOf phone).length = 10
            ∨ ((digitsOf phone).length = 12 ∧ (digitsOf phone).headD ' ' = '7'))))
    ∧ validatePhoneNumber "89930057019" = some "+79930057019"
    ∧ validatePhoneNumber "123" = none
    ∧ (∀ (s : PhoneSession) (text : String),
        validatePhoneNumber text = none →
          (onPhoneNumberInput s text).dialogState = s.dialogState
          ∧ (onPhoneNumberInput s text).phoneNumber = s.phoneNumber
          ∧ (onPhoneNumberInput s text).errorMessage ≠ "")
    ∧ (∀ (s : PhoneSession) (text f : String),
        validatePhoneNumber text = some f →
          (onPhoneNumberInput s text).dialogState = .confirm_phone
          ∧ (onPhoneNumberInput s text).phoneNumber = some f
          ∧ (onPhoneNumberInput s text).errorMessage = "") := by
  refine ⟨?_, by decide, by decide, ?_, ?_⟩
  · intro phone
    refine ⟨?_, ?_, ?_, ?_⟩
    · intro h11 hhd
      rcases hhd with h | h <;>
        simp [validatePhoneNumber, h11, h, -List.headD_eq_head?_getD]
    · intro h10
      simp [validatePhoneNumber, h10]
    · intro h12 hhd
      simp [validatePhoneNumber, h12, hhd, -List.headD_eq_head?_getD]
    · constructor
      · intro hnone hcond
        rcases hcond with ⟨h1, h2⟩ | h | ⟨h1, h2⟩
        · rcases h2 with h | h <;>
            simp [validatePhoneNumber, h1, h, -List.headD_eq_head?_getD] at hnone
        · simp [validatePhoneNumber, h, -List.headD_eq_head?_getD] at hnone
        · simp [validatePhoneNumber, h1, h2, -List.headD_eq_head?_getD] at hnone
      · intro hncond
        push_neg at hncond
        obtain ⟨hn1, hn2, hn3⟩ := hncond
        simp only [validatePhoneNumber]
        split_ifs with c1 c2 c3
        · simp only [Bool.and_eq_true, Bool.or_eq_true, beq_iff_eq] at c1
          tauto
        · simp only [beq_iff_eq] at c2
          tauto
        · simp only [Bool.and_eq_true, beq_iff_eq] at c3
          tauto
        · rfl
  · intro s text hv
    refine ⟨?_, ?_, ?_⟩ <;> simp [onPhoneNumberInput, hv]
  · intro s text f hv
    refine ⟨?_, ?_, ?_⟩ <;> simp [onPhoneNumberInput, hv]

/-- C8 witness: the rejection branch at the concrete input `123` leaves
the session in the phone-entry state with a non-empty error message. -/
theorem claim_C8_witness :
    (onPhoneNumberInput ⟨.enter_phone, none, ""⟩ "123").dialogState = .enter_phone
      ∧ (onPhoneNumberInput ⟨.enter_phone, none, ""⟩ "123").phoneNumber = none
      ∧ (onPhoneNumberInput ⟨.enter_phone, none, ""⟩ "123").errorMessage ≠ "" :=
  claim_C8.2.2.2.1 ⟨.enter_phone, none, ""⟩ "123" (by decide)

/-- C9 counterexample: the pre-checkout handler accepts the payload
`request_abc` although it references no request created by the workflow
(the store's only request has id 5, whose payload would be `request_5`),
refuting "rejects every charge whose payload does not reference such a
request". -/
theorem claim_C9_cex :
    handlePreCheckoutQuery "request_abc" = .accept
      ∧ ¬ payloadReferencesRequest
          { statuses := [⟨1, "Новая"⟩], equipments := [],
            requests := [⟨5, 42, "Excavator-200", 10, "+79930057019", "addr", "Ivan", none, 1⟩],
            rentals := [], transactions := [],
            nextRequestId := 6, nextRentalId := 1, nextTxId := 1 } "request_abc" := by
  constructor
  · decide
  · rintro ⟨r, hr, hpay⟩
    simp only [List.mem_singleton] at hr
    subst hr
    exact absurd hpay (by decide)

/-- C9 (amended): the pre-charge validation is purely syntactic — it
accepts a charge exactly when its payload starts with the `request_`
prefix this workflow uses, rejecting (not-ok, with an error message)
every other payload; it does not verify that a matching request
exists. -/
theorem claim_C9 :
    ∀ payload : String,
      (handlePreCheckoutQuery payload = .accept ↔ startsWithRequest payload = true)
      ∧ (startsWithRequest payload = false →
          handlePreCheckoutQuery payload = .reject "Неверный идентификатор заказа.") := by
  intro payload
  by_cases h : startsWithRequest payload = true
  · simp [handlePreCheckoutQuery, h]
  · simp only [Bool.not_eq_true] at h
    simp [handlePreCheckoutQuery, h]

/-- C9 witness: a payload without the prefix is answered not-ok. -/
theorem claim_C9_witness :
    handlePreCheckoutQuery "foo" = .reject "Неверный идентификатор заказа." :=
  (claim_C9 "foo").2 (by decide)

/-- C10 witness: a raising equipment lookup yields the error-shaped
result. -/
theorem claim_C10_witness :
    (checkEquipmentAvailability (.error "db down") (.ok []) "X" 0 0
        none none).is_available = false
      ∧ (checkEquipmentAvailability (.error "db down") (.ok []) "X" 0 0
          none none).available_dates = [] :=
  (claim_C10 (.error "db down") (.ok []) "X" 0 0 none none).2
    (Or.inl ⟨"db down", rfl⟩)

/-! ### Helper lemmas about the payment confirmation handler -/

theorem handleSuccessfulPayment_ok (db : DB) (tgId : Int)
    (payload chargeId : String) (amt : Int) (rid : Nat) (stPaid : StatusRow)
    (hsw : startsWithRequest payload = true)
    (hparse : parseRequestId payload = some rid)
    (hnotx : ∀ t ∈ db.transactions, t.transaction_id ≠ chargeId)
    (hst : findStatus db "Оплачено" = some stPaid) :
    handleSuccessfulPayment db tgId payload chargeId amt
      = ({ db with
            transactions := db.transactions
              ++ [⟨db.nextTxId, rid, tgId, chargeId, (amt : ℚ) / 100, "success"⟩],
            nextTxId := db.nextTxId + 1,
            requests := db.requests.map (fun r =>
              if r.id == rid then { r with status_id := stPaid.id } else r) },
         .ok true true) := by
  have hany : db.transactions.any (fun t => t.transaction_id == chargeId) = false := by
    simp only [List.any_eq_false]
    intro t ht
    simpa using hnotx t ht
  simp [handleSuccessfulPayment, hsw, hparse, hany, hst]

/-! ### Claim theorems: payment confirmation and booking workflow -/

/-- C1 counterexample: delivering the same payment-confirmation event
(`provider_payment_charge_id` `ch-001`, request 5) twice makes the
second delivery fail on the uniqueness constraint of `transaction_id`
and roll back — the handler has no pre-existence check and does not
return the existing record, contradicting "the second delivery
returns/reuses the existing record rather than erroring". -/
theorem claim_C1_cex :
    (handleSuccessfulPayment
        (handleSuccessfulPayment
          { statuses := [⟨1, "Новая"⟩, ⟨3, "Оплачено"⟩], equipments := [],
            requests := [⟨5, 42, "Excavator-200", 10, "+79930057019", "addr", "Ivan", none, 1⟩],
            rentals := [], transactions := [],
            nextRequestId := 6, nextRentalId := 1, nextTxId := 1 }
          42 "request_5" "ch-001" 20000).1
        42 "request_5" "ch-001" 20000).2 = .duplicateCharge := by
  decide

/-- C1 (amended): on a first confirmation whose external charge id is
new, the handler persists exactly one `PaymentTransaction` with status
"success", transitions every request with the payload's id to the status
named "Оплачено" (Paid), and notifies the requester; delivering the same
event again fails on the uniqueness constraint of the charge id and
rolls back — leaving exactly one transaction row and the Paid status in
place after either delivery — instead of returning the existing
record. -/
theorem claim_C1 :
    ∀ (db : DB) (tgId : Int) (payload chargeId : String) (amt : Int)
      (rid : Nat) (stPaid : StatusRow),
      startsWithRequest payload = true →
      parseRequestId payload = some rid →
      (∀ t ∈ db.transactions, t.transaction_id ≠ chargeId) →
      findStatus db "Оплачено" = some stPaid →
      ((handleSuccessfulPayment db tgId payload chargeId amt).2 = .ok true true)
      ∧ (handleSuccessfulPayment db tgId payload chargeId amt).1.transactions
          = db.transactions
            ++ [⟨db.nextTxId, rid, tgId, chargeId, (amt : ℚ) / 100, "success"⟩]
      ∧ ((handleSuccessfulPayment db tgId payload chargeId amt).1.transactions.countP
            (fun t => t.transaction_id == chargeId)) = 1
      ∧ (∀ r ∈ db.requests, r.id = rid →
          { r with status_id := stPaid.id }
            ∈ (handleSuccessfulPayment db tgId payload chargeId amt).1.requests)
      ∧ handleSuccessfulPayment
            (handleSuccessfulPayment db tgId payload chargeId amt).1 tgId payload
            chargeId amt
          = ((handleSuccessfulPayment db tgId payload chargeId amt).1,
             .duplicateCharge) := by
  intro db tgId payload chargeId amt rid stPaid hsw hparse hnotx hst
  have h0 : db.transactions.countP (fun t => t.transaction_id == chargeId) = 0 :=
    List.countP_eq_zero.mpr (fun t ht => by simpa using hnotx t ht)
  rw [handleSuccessfulPayment_ok db tgId payload chargeId amt rid stPaid
    hsw hparse hnotx hst]
  refine ⟨rfl, rfl, ?_, ?_, ?_⟩
  · simp [List.countP_append, h0]
  · intro r hr hrid
    exact List.mem_map.mpr ⟨r, hr, by simp [hrid]⟩
  · simp [handleSuccessfulPayment, hsw, hparse, List.any_append]

/-- C1 witness: the amended behaviour at the concrete two-delivery run of
the counterexample. -/
theorem claim_C1_witness :
    ((handleSuccessfulPayment
        { statuses := [⟨1, "Новая"⟩, ⟨3, "Оплачено"⟩], equipments := [],
          requests := [⟨5, 42, "Excavator-200", 10, "+79930057019", "addr", "Ivan", none, 1⟩],
          rentals := [], transactions := [],
          nextRequestId := 6, nextRentalId := 1, nextTxId := 1 }
        42 "request_5" "ch-001" 20000).2 = .ok true true)
      ∧ ((handleSuccessfulPayment
          { statuses := [⟨1, "Новая"⟩, ⟨3, "Оплачено"⟩], equipments := [],
            requests := [⟨5, 42, "Excavator-200", 10, "+79930057019", "addr", "Ivan", none, 1⟩],
            rentals := [], transactions := [],
            nextRequestId := 6, nextRentalId := 1, nextTxId := 1 }
          42 "request_5" "ch-001" 20000).1.transactions.countP
            (fun t => t.transaction_id == "ch-001")) = 1 :=
  ⟨(claim_C1 _ 42 "request_5" "ch-001" 20000 5 ⟨3, "Оплачено"⟩ (by decide)
      (by decide) (by simp) (by decide)).1,
   (claim_C1 _ 42 "request_5" "ch-001" 20000 5 ⟨3, "Оплачено"⟩ (by decide)
      (by decide) (by simp) (by decide)).2.2.1⟩

/-- C2: submission is atomic — when the named equipment does not exist
(or the status lookup inside the insert fails) the handler's exception
path rolls the transaction back, leaving the store exactly as it was; on
success exactly one new `BookingRequest` in the status named "Новая"
(New) carrying the draft's fields and one new `RentalInterval` starting
on the requested date with the price copied from the equipment's current
daily rate are appended together in the single committed transaction,
with every other table untouched. -/
theorem claim_C2 :
    ∀ (db : DB) (tgId : Int) (firstName : String) (username : Option String)
      (equipmentName : String) (selectedDate : Int) (phone address : String),
      (∀ m, (onSendRequestClick db tgId firstName username equipmentName
            selectedDate phone address).2 = .err m →
        (onSendRequestClick db tgId firstName username equipmentName
            selectedDate phone address).1 = db)
      ∧ (db.equipments.find? (fun e => e.name == equipmentName) = none →
          ∃ m, (onSendRequestClick db tgId firstName username equipmentName
              selectedDate phone address).2 = .err m)
      ∧ (∀ equip st,
          db.equipments.find? (fun e => e.name == equipmentName) = some equip →
          findStatus db "Новая" = some st →
          ∃ req rental,
            (onSendRequestClick db tgId firstName username equipmentName
                selectedDate phone address).2 = .ok req
            ∧ (onSendRequestClick db tgId firstName username equipmentName
                selectedDate phone address).1.requests = db.requests ++ [req]
            ∧ (onSendRequestClick db tgId firstName username equipmentName
                selectedDate phone address).1.rentals = db.rentals ++ [rental]
            ∧ req.status_id = st.id ∧ req.tg_id = tgId
            ∧ req.equipment_name = equipmentName
            ∧ req.selected_date = selectedDate ∧ req.phone_number = phone
            ∧ req.address = address
            ∧ rental.equipment_id = equip.id
            ∧ rental.start_date = selectedDate
            ∧ rental.rental_price_at_time = equip.rental_price_per_day
            ∧ rental.end_date = none
            ∧ (onSendRequestClick db tgId firstName username equipmentName
                selectedDate phone address).1.transactions = db.transactions
            ∧ (onSendRequestClick db tgId firstName username equipmentName
                selectedDate phone address).1.statuses = db.statuses
            ∧ (onSendRequestClick db tgId firstName username equipmentName
                selectedDate phone address).1.equipments = db.equipments) := by
  intro db tgId firstName username equipmentName selectedDate phone address
  refine ⟨?_, ?_, ?_⟩
  · intro m hm
    rcases hfe : db.equipments.find? (fun e => e.name == equipmentName) with _ | equip
    · simp [onSendRequestClick, hfe]
    · rcases hfs : findStatus db "Новая" with _ | st
      · simp [onSendRequestClick, hfe, hfs]
      · exfalso
        simp [onSendRequestClick, hfe, hfs] at hm
  · intro hfe
    exact ⟨"Спецтехника с именем " ++ equipmentName ++ " не найдено",
      by simp [onSendRequestClick, hfe]⟩
  · intro equip st heq hst
    refine ⟨⟨db.nextRequestId, tgId, equipmentName, selectedDate, phone,
        address, firstName, username, st.id⟩,
      ⟨db.nextRentalId, equip.id, selectedDate, none,
        equip.rental_price_per_day, none⟩,
      ?_, ?_, ?_, rfl, rfl, rfl, rfl, rfl, rfl, rfl, rfl, rfl, rfl,
      ?_, ?_, ?_⟩ <;>
    simp [onSendRequestClick, heq, hst]

/-- C2 witness: a concrete successful submission appends exactly the new
request and its rental interval. -/
theorem claim_C2_witness :
    ∃ req rental,
      (onSendRequestClick
          { statuses := [⟨1, "Новая"⟩],
            equipments := [⟨1, "Excavator-200", 100⟩], requests := [],
            rentals := [], transactions := [],
            nextRequestId := 1, nextRentalId := 1, nextTxId := 1 }
          42 "Ivan" none "Excavator-200" 10 "+79930057019" "addr").2 = .ok req
      ∧ (onSendRequestClick
          { statuses := [⟨1, "Новая"⟩],
            equipments := [⟨1, "Excavator-200", 100⟩], requests := [],
            rentals := [], transactions := [],
            nextRequestId := 1, nextRentalId := 1, nextTxId := 1 }
          42 "Ivan" none "Excavator-200" 10 "+79930057019" "addr").1.requests
        = [] ++ [req]
      ∧ (onSendRequestClick
          { statuses := [⟨1, "Новая"⟩],
            equipments := [⟨1, "Excavator-200", 100⟩], requests := [],
            rentals := [], transactions := [],
            nextRequestId := 1, nextRentalId := 1, nextTxId := 1 }
          42 "Ivan" none "Excavator-200" 10 "+79930057019" "addr").1.rentals
        = [] ++ [rental]
      ∧ req.status_id = (1 : Nat) ∧ req.tg_id = 42
      ∧ req.equipment_name = "Excavator-200"
      ∧ req.selected_date = 10 ∧ req.phone_number = "+79930057019"
      ∧ req.address = "addr"
      ∧ rental.equipment_id = 1
      ∧ rental.start_date = 10
      ∧ rental.rental_price_at_time = (⟨1, "Excavator-200", 100⟩ : EquipmentRow).rental_price_per_day
      ∧ rental.end_date = none
      ∧ (onSendRequestClick
          { statuses := [⟨1, "Новая"⟩],
            equipments := [⟨1, "Excavator-200", 100⟩], requests := [],
            rentals := [], transactions := [],
            nextRequestId := 1, nextRentalId := 1, nextTxId := 1 }
          42 "Ivan" none "Excavator-200" 10 "+79930057019" "addr").1.transactions = []
      ∧ (onSendRequestClick
          { statuses := [⟨1, "Новая"⟩],
            equipments := [⟨1, "Excavator-200", 100⟩], requests := [],
            rentals := [], transactions := [],
            nextRequestId := 1, nextRentalId := 1, nextTxId := 1 }
          42 "Ivan" none "Excavator-200" 10 "+79930057019" "addr").1.statuses
        = [⟨1, "Новая"⟩]
      ∧ (onSendRequestClick
          { statuses := [⟨1, "Новая"⟩],
            equipments := [⟨1, "Excavator-200", 100⟩], requests := [],
            rentals := [], transactions := [],
            nextRequestId := 1, nextRentalId := 1, nextTxId := 1 }
          42 "Ivan" none "Excavator-200" 10 "+79930057019" "addr").1.equipments
        = [⟨1, "Excavator-200", 100⟩] :=
  (claim_C2 _ 42 "Ivan" none "Excavator-200" 10 "+79930057019" "addr").2.2
    ⟨1, "Excavator-200", 100⟩ ⟨1, "Новая"⟩ rfl rfl

/-- C3 counterexample: the store holds request 5 in the terminal status
"Оплачено" (Paid, status id 3), yet the single-request cancel (which
updates by the request id alone, with no status filter) moves it to the
hard-coded status id 8 (Deleted) — contradicting "cancelOne transitions
only a request currently in status New" and moving a request out of a
terminal status. -/
theorem claim_C3_cex :
    (onConfirmDeleteClick
        { statuses := [⟨1, "Новая"⟩, ⟨3, "Оплачено"⟩, ⟨7, "Отменена"⟩, ⟨8, "Удалена"⟩],
          equipments := [],
          requests := [⟨5, 42, "Excavator-200", 10, "+79930057019", "addr", "Ivan", none, 3⟩],
          rentals := [], transactions := [],
          nextRequestId := 6, nextRentalId := 1, nextTxId := 1 } 5).1.requests
      = [⟨5, 42, "Excavator-200", 10, "+79930057019", "addr", "Ivan", none, 8⟩]
    ∧ findStatus
        { statuses := [⟨1, "Новая"⟩, ⟨3, "Оплачено"⟩, ⟨7, "Отменена"⟩, ⟨8, "Удалена"⟩],
          equipments := [],
          requests := [⟨5, 42, "Excavator-200", 10, "+79930057019", "addr", "Ivan", none, 3⟩],
          rentals := [], transactions := [],
          nextRequestId := 6, nextRentalId := 1, nextTxId := 1 } "Оплачено"
      = some ⟨3, "Оплачено"⟩ := by
  constructor <;> decide

/-- C3 (amended): only the bulk cancel respects the state machine — it
transitions exactly the requester's requests in the status named "Новая"
(New) to "Отменена" (Cancelled) and leaves every request not in New (in
particular every terminal one) unchanged; the single-request cancel
updates by the request id alone and sets status id 8 (Deleted) whatever
the current status, and payment confirmation likewise sets the status
named "Оплачено" (Paid) by id alone — so those two operations can move a
request out of a terminal status. -/
theorem claim_C3 :
    (∀ (db : DB) (tgId : Int) (stNew stCan : StatusRow),
      findStatus db "Новая" = some stNew →
      findStatus db "Отменена" = some stCan →
      (∀ r ∈ db.requests, r.status_id ≠ stNew.id →
          r ∈ (onConfirmDeleteAllClick db tgId).1.requests)
      ∧ (∀ r ∈ db.requests, r.tg_id = tgId → r.status_id = stNew.id →
          { r with status_id := stCan.id }
            ∈ (onConfirmDeleteAllClick db tgId).1.requests)
      ∧ (onConfirmDeleteAllClick db tgId).2
          = .done (db.requests.countP
              (fun r => r.tg_id == tgId && r.status_id == stNew.id)))
    ∧ (∀ (db : DB) (rid : Nat) (r : RequestRow), r ∈ db.requests → r.id = rid →
        { r with status_id := 8 } ∈ (onConfirmDeleteClick db rid).1.requests)
    ∧ (∀ (db : DB) (tgId : Int) (payload chargeId : String) (amt : Int)
        (rid : Nat) (stPaid : StatusRow) (r : RequestRow),
        startsWithRequest payload = true →
        parseRequestId payload = some rid →
        (∀ t ∈ db.transactions, t.transaction_id ≠ chargeId) →
        findStatus db "Оплачено" = some stPaid →
        r ∈ db.requests → r.id = rid →
        { r with status_id := stPaid.id }
          ∈ (handleSuccessfulPayment db tgId payload chargeId amt).1.requests) := by
  refine ⟨?_, ?_, ?_⟩
  · intro db tgId stNew stCan hn hc
    refine ⟨?_, ?_, ?_⟩
    · intro r hr hne
      simp only [onConfirmDeleteAllClick, hn, hc]
      refine List.mem_map.mpr ⟨r, hr, ?_⟩
      simp [hne]
    · intro r hr h1 h2
      simp only [onConfirmDeleteAllClick, hn, hc]
      refine List.mem_map.mpr ⟨r, hr, ?_⟩
      simp [h1, h2]
    · simp only [onConfirmDeleteAllClick, hn, hc]
  · intro db rid r hr hrid
    simp only [onConfirmDeleteClick]
    exact List.mem_map.mpr ⟨r, hr, by simp [hrid]⟩
  · intro db tgId payload chargeId amt rid stPaid r hsw hparse hnotx hst hr hrid
    rw [handleSuccessfulPayment_ok db tgId payload chargeId amt rid stPaid
      hsw hparse hnotx hst]
    exact List.mem_map.mpr ⟨r, hr, by simp [hrid]⟩

/-- C3 witness: concrete instances of the three amended behaviours — a
Paid request untouched by the bulk cancel, a New request cancelled by
it, and a Paid request moved to Deleted by the single cancel. -/
theorem claim_C3_witness :
    ((⟨6, 42, "Excavator-200", 11, "+79930057019", "addr", "Ivan", none, 3⟩ : RequestRow)
        ∈ (onConfirmDeleteAllClick
          { statuses := [⟨1, "Новая"⟩, ⟨3, "Оплачено"⟩, ⟨7, "Отменена"⟩, ⟨8, "Удалена"⟩],
            equipments := [],
            requests := [⟨5, 42, "Excavator-200", 10, "+79930057019", "addr", "Ivan", none, 1⟩,
              ⟨6, 42, "Excavator-200", 11, "+79930057019", "addr", "Ivan", none, 3⟩],
            rentals := [], transactions := [],
            nextRequestId := 7, nextRentalId := 1, nextTxId := 1 } 42).1.requests)
    ∧ ((⟨5, 42, "Excavator-200", 10, "+79930057019", "addr", "Ivan", none, 7⟩ : RequestRow)
        ∈ (onConfirmDeleteAllClick
          { statuses := [⟨1, "Новая"⟩, ⟨3, "Оплачено"⟩, ⟨7, "Отменена"⟩, ⟨8, "Удалена"⟩],
            equipments := [],
            requests := [⟨5, 42, "Excavator-200", 10, "+79930057019", "addr", "Ivan", none, 1⟩,
              ⟨6, 42, "Excavator-200", 11, "+79930057019", "addr", "Ivan", none, 3⟩],
            rentals := [], transactions := [],
            nextRequestId := 7, nextRentalId := 1, nextTxId := 1 } 42).1.requests)
    ∧ ((⟨6, 42, "Excavator-200", 11, "+79930057019", "addr", "Ivan", none, 8⟩ : RequestRow)
        ∈ (onConfirmDeleteClick
          { statuses := [⟨1, "Новая"⟩, ⟨3, "Оплачено"⟩, ⟨7, "Отменена"⟩, ⟨8, "Удалена"⟩],
            equipments := [],
            requests := [⟨6, 42, "Excavator-200", 11, "+79930057019", "addr", "Ivan", none, 3⟩],
            rentals := [], transactions := [],
            nextRequestId := 7, nextRentalId := 1, nextTxId := 1 } 6).1.requests) :=
  ⟨((claim_C3.1
      { statuses := [⟨1, "Новая"⟩, ⟨3, "Оплачено"⟩, ⟨7, "Отменена"⟩, ⟨8, "Удалена"⟩],
        equipments := [],
        requests := [⟨5, 42, "Excavator-200", 10, "+79930057019", "addr", "Ivan", none, 1⟩,
          ⟨6, 42, "Excavator-200", 11, "+79930057019", "addr", "Ivan", none, 3⟩],
        rentals := [], transactions := [],
        nextRequestId := 7, nextRentalId := 1, nextTxId := 1 }
      42 ⟨1, "Новая"⟩ ⟨7, "Отменена"⟩ (by decide) (by decide)).1
      ⟨6, 42, "Excavator-200", 11, "+79930057019", "addr", "Ivan", none, 3⟩
      (by simp) (by decide)),
   ((claim_C3.1
      { statuses := [⟨1, "Новая"⟩, ⟨3, "Оплачено"⟩, ⟨7, "Отменена"⟩, ⟨8, "Удалена"⟩],
        equipments := [],
        requests := [⟨5, 42, "Excavator-200", 10, "+79930057019", "addr", "Ivan", none, 1⟩,
          ⟨6, 42, "Excavator-200", 11, "+79930057019", "addr", "Ivan", none, 3⟩],
        rentals := [], transactions := [],
        nextRequestId := 7, nextRentalId := 1, nextTxId := 1 }
      42 ⟨1, "Новая"⟩ ⟨7, "Отменена"⟩ (by decide) (by decide)).2.1
      ⟨5, 42, "Excavator-200", 10, "+79930057019", "addr", "Ivan", none, 1⟩
      (by simp) rfl rfl),
   (claim_C3.2.1 _ 6
      ⟨6, 42, "Excavator-200", 11, "+79930057019", "addr", "Ivan", none, 3⟩
      (by simp) rfl)⟩

/-! ### Helper lemma about the payment-details getter -/

theorem paymentDetailsGetter_ok (db : DB) (rid : Nat) (tg : Int)
    (d : PaymentDetails) (h : paymentDetailsGetter db rid tg = .ok d) :
    d.request_id = rid ∧ 0 < d.total_cost_kopecks := by
  simp only [paymentDetailsGetter] at h
  repeat' split at h
  any_goals cases h
  refine ⟨rfl, ?_⟩
  dsimp only
  omega

/-- C4: before sending an invoice the pay-now handler recomputes the
payment details — whose amount guard ensures a returned amount is
strictly positive — refuses with an error (changing nothing) when the
details computation fails, refuses (changing nothing) when a
`PaymentTransaction` for the request already exists, and on two
immediately successive calls with no intervening confirmation ends with
exactly one live invoice message, the first invoice having been deleted
before the second was sent. -/
theorem claim_C4 :
    (∀ (s : PayState) (rid : Nat) (tg : Int) (d : PaymentDetails),
        paymentDetailsGetter s.db rid tg = .ok d → 0 < d.total_cost_kopecks)
    ∧ (∀ (s : PayState) (rid : Nat) (tg : Int) (m : String),
        paymentDetailsGetter s.db rid tg = .err m →
          onPayNowClick s rid tg = (s, .detailsError m))
    ∧ (∀ (s : PayState) (rid : Nat) (tg : Int) (t : PaymentTransactionRow),
        t ∈ s.db.transactions → t.request_id = rid →
          (onPayNowClick s rid tg).1 = s
          ∧ ∀ mid, (onPayNowClick s rid tg).2 ≠ .invoiceSent mid)
    ∧ (∀ (s : PayState) (rid : Nat) (tg : Int) (m1 : Nat),
        s.liveInvoices = [] → s.invoiceMessageId = none →
        (onPayNowClick s rid tg).2 = .invoiceSent m1 →
          (onPayNowClick (onPayNowClick s rid tg).1 rid tg).1.liveInvoices
            = [m1 + 1]) := by
  refine ⟨?_, ?_, ?_, ?_⟩
  · intro s rid tg d h
    exact (paymentDetailsGetter_ok s.db rid tg d h).2
  · intro s rid tg m h
    simp [onPayNowClick, h]
  · intro s rid tg t ht htr
    rcases hres : paymentDetailsGetter s.db rid tg with d | m
    · obtain ⟨hdid, _⟩ := paymentDetailsGetter_ok s.db rid tg d hres
      have hfind : (s.db.transactions.find?
          (fun t2 => t2.request_id == d.request_id)).isSome := by
        rw [List.find?_isSome]
        exact ⟨t, ht, by simp [htr, hdid]⟩
      obtain ⟨t0, hfind⟩ := Option.isSome_iff_exists.mp hfind
      constructor
      · simp [onPayNowClick, hres, hfind]
      · intro mid
        simp [onPayNowClick, hres, hfind]
    · constructor
      · simp [onPayNowClick, hres]
      · intro mid
        simp [onPayNowClick, hres]
  · intro s rid tg m1 hlive hmid hr1
    rcases hres : paymentDetailsGetter s.db rid tg with d | m
    · rcases hfind : s.db.transactions.find?
          (fun t => t.request_id == d.request_id) with _ | t0
      · have hkop : ¬ d.total_cost_kopecks ≤ 0 := by
          have := (paymentDetailsGetter_ok s.db rid tg d hres).2
          omega
        have hs1 : onPayNowClick s rid tg
            = ({ s with liveInvoices := [s.nextMessageId],
                        invoiceMessageId := some s.nextMessageId,
                        nextMessageId := s.nextMessageId + 1 },
               .invoiceSent s.nextMessageId) := by
          simp [onPayNowClick, hres, hfind, hkop, hlive, hmid]
        rw [hs1] at hr1
        simp only at hr1
        have hm1 : m1 = s.nextMessageId := by
          cases hr1
          rfl
        subst hm1
        rw [hs1]
        simp [onPayNowClick, hres, hfind, hkop]
      · simp [onPayNowClick, hres, hfind] at hr1
    · simp [onPayNowClick, hres] at hr1

/-- C4 witness: a concrete store (request 1, priced rental with an end
date, no transaction) where the second immediate pay-now click leaves
exactly the second invoice message live. -/
theorem claim_C4_witness :
    (onPayNowClick
        (onPayNowClick
          ⟨{ statuses := [⟨1, "Новая"⟩],
             equipments := [⟨1, "Excavator-200", 100⟩],
             requests := [⟨1, 42, "Excavator-200", 10, "+79930057019", "addr", "Ivan", none, 1⟩],
             rentals := [⟨1, 1, 10, some 12, 100, some (2, 0)⟩],
             transactions := [],
             nextRequestId := 2, nextRentalId := 2, nextTxId := 1 },
           none, [], 1⟩ 1 42).1 1 42).1.liveInvoices = [2] :=
  claim_C4.2.2.2
    ⟨{ statuses := [⟨1, "Новая"⟩],
       equipments := [⟨1, "Excavator-200", 100⟩],
       requests := [⟨1, 42, "Excavator-200", 10, "+79930057019", "addr", "Ivan", none, 1⟩],
       rentals := [⟨1, 1, 10, some 12, 100, some (2, 0)⟩],
       transactions := [],
       nextRequestId := 2, nextRentalId := 2, nextTxId := 1 },
     none, [], 1⟩ 1 42 1 rfl rfl
    (by simp [onPayNowClick, paymentDetailsGetter, calculateTotalCost, truncQ]
        norm_num)

end BookingCore
